import Mathlib

/-!
Shallow embedding of the OTP / password authentication core of the
Billing-Backend repository (`apps/auth_app/views.py`: `SendOTP.post`,
`VerifyOTP.post`, `LoginView.post`), together with the volatile cache used
for rate limiting and lockout (Django `cache.get` / `cache.set` /
`cache.delete` with TTLs) and the durable User / OTP records.

Time is modelled as `Nat` (seconds).  The Django cache is one expiring
key-value store; its keys are the three formatted string families
`otp_rate_{phone}`, `otp_verify_attempts_{phone}_{code}` and
`otp_verify_lock_{phone}_{code}`.  Since phones and codes are numeric
strings (serializer-validated), the formatted keys are in bijection with
the inductive `CacheKey` below, which we use as the key type.  A cache
entry stores a value and an absolute expiry instant; an entry set at time
`t` with TTL `d` is visible to `get` exactly at instants `t2 < t + d`,
matching Django's expiry check.  The model of `django.db` row state is a
`List` of records; `select_for_update` + `transaction.atomic` make the
read-check-mark block of `VerifyOTP.post` a single atomic step, so a
concurrent execution of such blocks is equivalent to some serial order of
them, which is how claim C1 is stated.
-/

/-- A durable OTP row: phone, code, used flag, creation and expiry instants
(`apps/auth_app/models.py` is not in the sources; the fields are those read
and written by `views.py` and described by the spec). -/
structure OTPRec where
  phone : String
  code : String
  used : Bool
  created_at : Nat
  expires_at : Nat
deriving DecidableEq, Repr

/-- A durable User row with the fields the auth core reads: id, unique
phone, optional email, stored password hash, active flag, super-admin flag,
and the names of the roles assigned via RoleAssignment rows
(`user.user_roles.filter(role__name=...)`). -/
structure UserRec where
  id : Nat
  phone : String
  email : Option String
  password : String
  is_active : Bool
  is_super_admin : Bool
  roles : List String
deriving DecidableEq, Repr

/-- Keys of the Django cache used by the auth views: the formatted strings
`otp_rate_{phone}`, `otp_verify_attempts_{phone}_{code}`,
`otp_verify_lock_{phone}_{code}`. -/
inductive CacheKey where
  | rate (phone : String)
  | attempts (phone code : String)
  | lock (phone code : String)
deriving DecidableEq, Repr

/-- The volatile cache: association list of (key, value, absolute expiry).
Values are the cached Python ints (the lockout flag `True` is stored as 1). -/
def Cache := List (CacheKey × Nat × Nat)

instance : DecidableEq Cache := inferInstanceAs (DecidableEq (List _))

instance : Repr Cache := inferInstanceAs (Repr (List _))

/-- Raw lookup of a live-or-dead entry (ignores expiry). -/
def cacheFind (c : Cache) (k : CacheKey) : Option (Nat × Nat) :=
  match c.find? (fun e => decide (e.1 = k)) with
  | some e => some e.2
  | none => none

/-- `cache.get(key)` at instant `now`: the stored value while unexpired. -/
def cacheGet (c : Cache) (k : CacheKey) (now : Nat) : Option Nat :=
  match cacheFind c k with
  | some (v, exp) => if now < exp then some v else none
  | none => none

/-- `cache.set(key, v, ttl)` at instant `now`. -/
def cacheSet (c : Cache) (k : CacheKey) (v ttl now : Nat) : Cache :=
  (k, v, now + ttl) :: c.filter (fun e => !decide (e.1 = k))

/-- `cache.delete(key)`. -/
def cacheDelete (c : Cache) (k : CacheKey) : Cache :=
  c.filter (fun e => !decide (e.1 = k))

/-- Python truthiness of a cached value (`if cache.get(lock_key):`). -/
def truthy : Option Nat → Bool
  | some v => v != 0
  | none => false

/-- Combined durable + volatile state seen by the auth views. -/
structure State where
  users : List UserRec
  otps : List OTPRec
  cache : Cache
deriving DecidableEq, Repr

/-- Configuration surface with the defaults from `views.py` / settings. -/
structure Config where
  otpExpiryMinutes : Nat := 5
  maxOtpPerHour : Nat := 5
  maxVerifyAttempts : Nat := 5
  lockDurationSeconds : Nat := 300
  jwtExpirySeconds : Nat := 86400
deriving Repr

def defaultCfg : Config := {}

/-- `RATE_LIMIT_WINDOW = 60 * 60` from `views.py`. -/
def RATE_LIMIT_WINDOW : Nat := 60 * 60

/-- The JWT payload built by both views: user id, issued-at, expiry. -/
structure TokenPayload where
  user_id : Nat
  iat : Nat
  exp : Nat
deriving DecidableEq, Repr

def issueToken (cfg : Config) (now : Nat) (u : UserRec) : TokenPayload :=
  { user_id := u.id, iat := now, exp := now + cfg.jwtExpirySeconds }

inductive SendResult where
  | otpSent (code : String)
  | rateLimited
  | accountDisabled
  | internalError
deriving DecidableEq, Repr

inductive VerifyResult where
  | success (token : TokenPayload)
  | tooManyAttempts
  | invalidOrExpiredCode
  | userNotFound
  | accountDisabled
  | accessDenied (role : String)
  | internalError
deriving DecidableEq, Repr

inductive LoginResult where
  | success (token : TokenPayload)
  | missingFields
  | invalidCredentials
  | accountDisabled
  | accessDenied (role : String)
  | internalError
deriving DecidableEq, Repr

/-- Modelled from the spec: `OTP.delete_old` (in the absent
`apps/auth_app/models.py`) opportunistically deletes OTP rows that are
already used or expired — "opportunistically delete OTP records that are
already used or expired". -/
def deleteOld (now : Nat) (otps : List OTPRec) : List OTPRec :=
  otps.filter (fun r => !r.used && decide (now < r.expires_at))

/-- Modelled from the spec: `OTP.objects.create_otp(phone, expires_minutes)`
(in the absent `apps/auth_app/models.py`) creates a row with a random
numeric code and expiry = now + configured minutes; the random draw is
passed in as `code`. -/
def createOtp (now : Nat) (phone code : String) (expiresMinutes : Nat) : OTPRec :=
  { phone := phone, code := code, used := false,
    created_at := now, expires_at := now + expiresMinutes * 60 }

/-- Modelled from the spec: `otp_obj.mark_used()` (in the absent
`apps/auth_app/models.py`) marks the row's used flag — "A record
transitions used=false→true exactly once". -/
def markUsed (r : OTPRec) : OTPRec := { r with used := true }

/-- The row filter of `VerifyOTP.post`:
`phone=phone, code=code, used=False, expires_at__gte=now`. -/
def otpMatches (now : Nat) (phone code : String) (r : OTPRec) : Bool :=
  decide (r.phone = phone) && decide (r.code = code) && !r.used &&
    decide (now ≤ r.expires_at)

/-- Mark the (unique) fetched row used, in place. -/
def markOne (otps : List OTPRec) (r : OTPRec) : List OTPRec :=
  otps.map (fun x => if x = r then markUsed x else x)

/-- The invalidate-previous `update(expires_at=now)` of `SendOTP.post` on
every row with `phone=phone, used=False, expires_at__gt=now`. -/
def invalidatePrev (now : Nat) (phone : String) (otps : List OTPRec) : List OTPRec :=
  otps.map (fun r =>
    if decide (r.phone = phone) && !r.used && decide (now < r.expires_at) then
      { r with expires_at := now }
    else r)

/-- The invalidate-previous + create tail of `SendOTP.post` (lines 61-103):
`OTP.delete_old()`, then `expires_at := now` on every currently valid row
for the phone, then create the new row. -/
def sendCreate (cfg : Config) (now : Nat) (phone newCode : String) (st : State) :
    SendResult × State :=
  (SendResult.otpSent newCode,
   { st with otps := invalidatePrev now phone (deleteOld now st.otps) ++
                       [createOtp now phone newCode cfg.otpExpiryMinutes] })

/-- `SendOTP.post`: rate-limit check, counter increment, inactive-user
check, then invalidate-and-create.  A `User.objects.get` hitting several
rows would raise out of the view (phone is unique), modelled as
`internalError`. -/
def sendOTP (cfg : Config) (now : Nat) (phone newCode : String) (st : State) :
    SendResult × State :=
  let counter := (cacheGet st.cache (CacheKey.rate phone) now).getD 0
  if cfg.maxOtpPerHour ≤ counter then
    (SendResult.rateLimited, st)
  else
    let st1 : State :=
      { st with cache := cacheSet st.cache (CacheKey.rate phone) (counter + 1)
                  RATE_LIMIT_WINDOW now }
    match st1.users.filter (fun u => decide (u.phone = phone)) with
    | [] => sendCreate cfg now phone newCode st1
    | [u] =>
      if !u.is_active then (SendResult.accountDisabled, st1)
      else sendCreate cfg now phone newCode st1
    | _ :: _ :: _ => (SendResult.internalError, st1)

/-- The role gate duplicated verbatim in `VerifyOTP.post` (lines 177-195)
and `LoginView.post` (lines 266-283): the super-admin flag is consulted
only when the requested role is the literal "SUPERADMIN"; any other role
passes iff a RoleAssignment with exactly that name exists. -/
def roleCheck (u : UserRec) (role : String) : Bool :=
  if role = "SUPERADMIN" then u.is_super_admin || u.roles.contains "SUPERADMIN"
  else u.roles.contains role

/-- `VerifyOTP.post`: lockout check, failure-count check, atomic consume
under `select_for_update`, counter clearing, user lookup, active check,
role gate, housekeeping sweep, token issuance. -/
def verifyOTP (cfg : Config) (now : Nat) (phone code : String)
    (requestedRole : Option String) (st : State) : VerifyResult × State :=
  let akey := CacheKey.attempts phone code
  let lkey := CacheKey.lock phone code
  if truthy (cacheGet st.cache lkey now) then
    (VerifyResult.tooManyAttempts, st)
  else
    let attempts := (cacheGet st.cache akey now).getD 0
    if cfg.maxVerifyAttempts ≤ attempts then
      (VerifyResult.tooManyAttempts,
       { st with cache := cacheSet st.cache lkey 1 cfg.lockDurationSeconds now })
    else
      match st.otps.filter (otpMatches now phone code) with
      | [] =>
        (VerifyResult.invalidOrExpiredCode,
         { st with cache := cacheSet st.cache akey (attempts + 1) 3600 now })
      | [r] =>
        let st1 : State :=
          { st with otps := markOne st.otps r,
                    cache := cacheDelete (cacheDelete st.cache akey) lkey }
        match st1.users.filter (fun u => decide (u.phone = phone)) with
        | [] => (VerifyResult.userNotFound, st1)
        | [u] =>
          if !u.is_active then (VerifyResult.accountDisabled, st1)
          else
            match requestedRole with
            | some role =>
              if roleCheck u role then
                (VerifyResult.success (issueToken cfg now u),
                 { st1 with otps := deleteOld now st1.otps })
              else (VerifyResult.accessDenied role, st1)
            | none =>
              (VerifyResult.success (issueToken cfg now u),
               { st1 with otps := deleteOld now st1.otps })
        | _ :: _ :: _ => (VerifyResult.internalError, st1)
      | _ :: _ :: _ => (VerifyResult.internalError, st)

/-- `user.check_password(password)`: the stored hash check, modelled as
comparison of the stored credential with the submitted one (hashing is
injective for the purpose of these claims). -/
def checkPassword (u : UserRec) (password : String) : Bool :=
  u.password = password

/-- The password / active / role-gate / token tail of `LoginView.post`. -/
def loginWithUser (cfg : Config) (now : Nat) (password : String)
    (requestedRole : Option String) (u : UserRec) : LoginResult :=
  if !(checkPassword u password) then LoginResult.invalidCredentials
  else if !u.is_active then LoginResult.accountDisabled
  else
    match requestedRole with
    | some role =>
      if roleCheck u role then LoginResult.success (issueToken cfg now u)
      else LoginResult.accessDenied role
    | none => LoginResult.success (issueToken cfg now u)

/-- `LoginView.post`: credential matched first as phone, then as email;
login never writes to the cache or the OTP table, so only the result is
returned. -/
def login (cfg : Config) (now : Nat) (credential password : String)
    (requestedRole : Option String) (st : State) : LoginResult :=
  if credential = "" ∨ password = "" then LoginResult.missingFields
  else
    match st.users.filter (fun u => decide (u.phone = credential)) with
    | [u] => loginWithUser cfg now password requestedRole u
    | [] =>
      match st.users.filter (fun u => decide (u.email = some credential)) with
      | [u] => loginWithUser cfg now password requestedRole u
      | [] => LoginResult.invalidCredentials
      | _ :: _ :: _ => LoginResult.internalError
    | _ :: _ :: _ => LoginResult.internalError

/-- The atomic read-check-mark transaction of `VerifyOTP.post` (lines
138-146): under the exclusive row lock, fetch the unique row matching
`otpMatches` and mark it used; no matching row (or an impossible multiple
match) is a failure.  `transaction.atomic` + `select_for_update` make this
a single indivisible step, so N concurrent verifications execute these
steps in some serial order. -/
def atomicConsume (now : Nat) (phone code : String) (otps : List OTPRec) :
    Bool × List OTPRec :=
  match otps.filter (otpMatches now phone code) with
  | [r] => (true, markOne otps r)
  | _ => (false, otps)

/-- Some serial order of `n` concurrent consume transactions for the same
(phone, code); returns the number of successes, the number of failures and
the final table. -/
def runConsumes (now : Nat) (phone code : String) (n : Nat) (otps : List OTPRec) :
    Nat × Nat × List OTPRec :=
  match n with
  | 0 => (0, 0, otps)
  | Nat.succ m =>
    let step := atomicConsume now phone code otps
    let rest := runConsumes now phone code m step.2
    ((if step.1 then 1 else 0) + rest.1,
     (if step.1 then 0 else 1) + rest.2.1, rest.2.2)

/-- A sequence of verify calls against one phone, each at its own instant
with its own submitted code. -/
def runVerifies (cfg : Config) (phone : String) (steps : List (Nat × String))
    (st : State) : List VerifyResult × State :=
  match steps with
  | [] => ([], st)
  | (t, c) :: rest =>
    let step := verifyOTP cfg t phone c none st
    let tail := runVerifies cfg phone rest step.2
    (step.1 :: tail.1, tail.2)

/-- An active user fixture (the spec's inactive-user scenario phone). -/
def activeUser : UserRec :=
  { id := 7, phone := "5550001", email := some "u@example.com", password := "pw",
    is_active := true, is_super_admin := false, roles := ["SALES_EXECUTIVE"] }

/-- The same account deactivated. -/
def inactiveUser : UserRec := { activeUser with is_active := false }

/-- A super-admin user fixture with no RoleAssignment rows. -/
def superAdminUser : UserRec :=
  { id := 9, phone := "9342547471", email := none, password := "Admin@123",
    is_active := true, is_super_admin := true, roles := [] }

/-- A valid OTP row for `activeUser`'s phone. -/
def sampleOtp : OTPRec :=
  { phone := "5550001", code := "1234", used := false, created_at := 0, expires_at := 300 }

/-- A valid OTP row for `superAdminUser`'s phone. -/
def superOtp : OTPRec :=
  { phone := "9342547471", code := "4321", used := false, created_at := 0, expires_at := 300 }

/- ### Cache lemmas -/

theorem find_filter_ne (l : List (CacheKey × Nat × Nat)) (k k2 : CacheKey) (h : k2 ≠ k) :
    (l.filter (fun e => !decide (e.1 = k))).find? (fun e => decide (e.1 = k2)) =
      l.find? (fun e => decide (e.1 = k2)) := by
  have hkn : ¬(k = k2) := fun he => h he.symm
  induction l with
  | nil => rfl
  | cons a l ih =>
    by_cases hk : a.1 = k
    · have h2 : ¬(a.1 = k2) := by rw [hk]; exact hkn
      simp [List.filter_cons, hk, List.find?_cons, h2, hkn, h, ih]
    · by_cases h2 : a.1 = k2
      · simp [List.filter_cons, hk, List.find?_cons, h2, h]
      · simp [List.filter_cons, hk, List.find?_cons, h2, h, ih]

theorem cacheFind_set_self (c : Cache) (k : CacheKey) (v ttl now : Nat) :
    cacheFind (cacheSet c k v ttl now) k = some (v, now + ttl) := by
  simp [cacheFind, cacheSet, List.find?_cons]

theorem cacheFind_set_ne (c : Cache) (k k2 : CacheKey) (v ttl now : Nat) (h : k2 ≠ k) :
    cacheFind (cacheSet c k v ttl now) k2 = cacheFind c k2 := by
  simp only [cacheFind, cacheSet, List.find?_cons]
  have h2 : ¬((k, v, now + ttl).1 = k2) := fun he => h he.symm
  simp [h2, find_filter_ne c k k2 h]

theorem cacheFind_delete_self (c : Cache) (k : CacheKey) :
    cacheFind (cacheDelete c k) k = none := by
  simp only [cacheFind, cacheDelete]
  have : (c.filter (fun e => !decide (e.1 = k))).find? (fun e => decide (e.1 = k)) = none := by
    rw [List.find?_eq_none]
    intro e he
    have := (List.mem_filter.mp he).2
    simpa using this
  simp [this]

theorem cacheFind_delete_ne (c : Cache) (k k2 : CacheKey) (h : k2 ≠ k) :
    cacheFind (cacheDelete c k) k2 = cacheFind c k2 := by
  simp only [cacheFind, cacheDelete, find_filter_ne c k k2 h]

theorem cacheGet_of_find_none (c : Cache) (k : CacheKey) (now : Nat)
    (h : cacheFind c k = none) : cacheGet c k now = none := by
  simp [cacheGet, h]

theorem cacheGet_set_ne (c : Cache) (k k2 : CacheKey) (v ttl now t2 : Nat) (h : k2 ≠ k) :
    cacheGet (cacheSet c k v ttl now) k2 t2 = cacheGet c k2 t2 := by
  simp [cacheGet, cacheFind_set_ne c k k2 v ttl now h]

theorem cacheGet_delete_ne (c : Cache) (k k2 : CacheKey) (t2 : Nat) (h : k2 ≠ k) :
    cacheGet (cacheDelete c k) k2 t2 = cacheGet c k2 t2 := by
  simp [cacheGet, cacheFind_delete_ne c k k2 h]

/- ### OTP table lemmas -/

theorem otpMatches_markUsed (now : Nat) (phone code : String) (r : OTPRec) :
    otpMatches now phone code (markUsed r) = false := by
  simp [otpMatches, markUsed]

theorem eq_of_matches_unique (now : Nat) (phone code : String) (l : List OTPRec)
    (r x : OTPRec) (h : l.filter (otpMatches now phone code) = [r])
    (hx : x ∈ l) (hm : otpMatches now phone code x = true) : x = r := by
  have hmem : x ∈ l.filter (otpMatches now phone code) := List.mem_filter.mpr ⟨hx, hm⟩
  rw [h] at hmem
  simpa using hmem

theorem markOne_filter_nil (now : Nat) (phone code : String) (l : List OTPRec)
    (r : OTPRec) (h : l.filter (otpMatches now phone code) = [r]) :
    (markOne l r).filter (otpMatches now phone code) = [] := by
  rw [List.filter_eq_nil]
  intro x hx
  rcases List.mem_map.mp hx with ⟨y, hy, hfy⟩
  by_cases hyr : y = r
  · subst hyr
    rw [if_pos rfl] at hfy
    rw [← hfy]
    simp [otpMatches_markUsed]
  · rw [if_neg hyr] at hfy
    subst hfy
    intro hm
    exact hyr (eq_of_matches_unique now phone code l r y h hy hm)

theorem invalidatePrev_deleteOld_expiry (t : Nat) (phone : String) (l : List OTPRec) :
    ∀ r ∈ invalidatePrev t phone (deleteOld t l), r.phone = phone → r.used = false →
      r.expires_at ≤ t := by
  intro r hr hphone hused
  rcases List.mem_map.mp hr with ⟨x, hx, hfx⟩
  by_cases hc : (decide (x.phone = phone) && !x.used && decide (t < x.expires_at)) = true
  · rw [if_pos hc] at hfx
    rw [← hfx]
  · rw [if_neg hc] at hfx
    subst hfx
    have hdel := (List.mem_filter.mp hx).2
    simp only [Bool.and_eq_true, Bool.not_eq_true', decide_eq_true_eq] at hdel
    exact absurd (by simp [hphone, hused, hdel.2]) hc

theorem filter_aged_nil (t t2 : Nat) (ht : t < t2) (phone : String) (l : List OTPRec)
    (p : OTPRec → Bool)
    (hp : ∀ r, p r = true → r.phone = phone ∧ r.used = false ∧ t2 ≤ r.expires_at) :
    (invalidatePrev t phone (deleteOld t l)).filter p = [] := by
  rw [List.filter_eq_nil]
  intro r hr hpr
  rcases hp r hpr with ⟨h1, h2, h3⟩
  have := invalidatePrev_deleteOld_expiry t phone l r hr h1 h2
  omega

/- ### Branch characterizations of the operations -/

theorem verify_locked (cfg : Config) (t : Nat) (phone code : String)
    (role : Option String) (st : State)
    (h : truthy (cacheGet st.cache (CacheKey.lock phone code) t) = true) :
    verifyOTP cfg t phone code role st = (VerifyResult.tooManyAttempts, st) := by
  simp [verifyOTP, h]

theorem verify_maxed (cfg : Config) (t : Nat) (phone code : String)
    (role : Option String) (st : State)
    (hl : truthy (cacheGet st.cache (CacheKey.lock phone code) t) = false)
    (ha : cfg.maxVerifyAttempts ≤ (cacheGet st.cache (CacheKey.attempts phone code) t).getD 0) :
    verifyOTP cfg t phone code role st =
      (VerifyResult.tooManyAttempts,
       { st with cache := cacheSet st.cache (CacheKey.lock phone code) 1
                   cfg.lockDurationSeconds t }) := by
  simp [verifyOTP, hl, ha]

theorem verify_no_match (cfg : Config) (t : Nat) (phone code : String)
    (role : Option String) (st : State)
    (hl : truthy (cacheGet st.cache (CacheKey.lock phone code) t) = false)
    (ha : (cacheGet st.cache (CacheKey.attempts phone code) t).getD 0 < cfg.maxVerifyAttempts)
    (hf : st.otps.filter (otpMatches t phone code) = []) :
    verifyOTP cfg t phone code role st =
      (VerifyResult.invalidOrExpiredCode,
       { st with cache := cacheSet st.cache (CacheKey.attempts phone code)
                   ((cacheGet st.cache (CacheKey.attempts phone code) t).getD 0 + 1) 3600 t }) := by
  simp [verifyOTP, hl, Nat.not_le.mpr ha, hf]

theorem verify_success_noRole (cfg : Config) (t : Nat) (phone code : String)
    (st : State) (r : OTPRec) (u : UserRec)
    (hl : truthy (cacheGet st.cache (CacheKey.lock phone code) t) = false)
    (ha : (cacheGet st.cache (CacheKey.attempts phone code) t).getD 0 < cfg.maxVerifyAttempts)
    (hf : st.otps.filter (otpMatches t phone code) = [r])
    (hu : st.users.filter (fun x => decide (x.phone = phone)) = [u])
    (hact : u.is_active = true) :
    verifyOTP cfg t phone code none st =
      (VerifyResult.success (issueToken cfg t u),
       { users := st.users, otps := deleteOld t (markOne st.otps r),
         cache := cacheDelete (cacheDelete st.cache (CacheKey.attempts phone code))
                    (CacheKey.lock phone code) }) := by
  simp [verifyOTP, hl, Nat.not_le.mpr ha, hf, hu, hact]

theorem send_rate_limited (cfg : Config) (t : Nat) (phone newCode : String) (st : State)
    (h : cfg.maxOtpPerHour ≤ (cacheGet st.cache (CacheKey.rate phone) t).getD 0) :
    sendOTP cfg t phone newCode st = (SendResult.rateLimited, st) := by
  simp [sendOTP, h]

theorem send_inactive (cfg : Config) (t : Nat) (phone newCode : String) (st : State)
    (u : UserRec)
    (hrate : (cacheGet st.cache (CacheKey.rate phone) t).getD 0 < cfg.maxOtpPerHour)
    (hu : st.users.filter (fun x => decide (x.phone = phone)) = [u])
    (hinact : u.is_active = false) :
    sendOTP cfg t phone newCode st =
      (SendResult.accountDisabled,
       { st with cache := cacheSet st.cache (CacheKey.rate phone)
                   ((cacheGet st.cache (CacheKey.rate phone) t).getD 0 + 1)
                   RATE_LIMIT_WINDOW t }) := by
  simp [sendOTP, Nat.not_le.mpr hrate, hu, hinact]

theorem send_active_sent (cfg : Config) (t : Nat) (phone newCode : String) (st : State)
    (u : UserRec)
    (hrate : (cacheGet st.cache (CacheKey.rate phone) t).getD 0 < cfg.maxOtpPerHour)
    (hu : st.users.filter (fun x => decide (x.phone = phone)) = [u])
    (hact : u.is_active = true) :
    sendOTP cfg t phone newCode st =
      (SendResult.otpSent newCode,
       { users := st.users,
         otps := invalidatePrev t phone (deleteOld t st.otps) ++
                   [createOtp t phone newCode cfg.otpExpiryMinutes],
         cache := cacheSet st.cache (CacheKey.rate phone)
                    ((cacheGet st.cache (CacheKey.rate phone) t).getD 0 + 1)
                    RATE_LIMIT_WINDOW t }) := by
  simp [sendOTP, Nat.not_le.mpr hrate, hu, hact, sendCreate]

theorem sendOTP_sent_state (cfg : Config) (t : Nat) (phone newCode : String) (st : State)
    (h : (sendOTP cfg t phone newCode st).1 = SendResult.otpSent newCode) :
    (sendOTP cfg t phone newCode st).2 =
      { users := st.users,
        otps := invalidatePrev t phone (deleteOld t st.otps) ++
                  [createOtp t phone newCode cfg.otpExpiryMinutes],
        cache := cacheSet st.cache (CacheKey.rate phone)
                   ((cacheGet st.cache (CacheKey.rate phone) t).getD 0 + 1)
                   RATE_LIMIT_WINDOW t } := by
  unfold sendOTP at h ⊢
  dsimp only at h ⊢
  split at h
  · exact absurd h (by simp)
  · split at h <;> rename_i hmatch
    · simp_all [sendCreate]
      rw [if_neg (by omega)]
    · split at h
      · exact absurd h (by simp)
      · simp_all [sendCreate]
        rw [if_neg (by omega)]
    · exact absurd h (by simp)

theorem verify_cache_cases (cfg : Config) (t : Nat) (phone code : String)
    (role : Option String) (st : State) :
    (verifyOTP cfg t phone code role st).2.cache = st.cache ∨
    (verifyOTP cfg t phone code role st).2.cache =
      cacheSet st.cache (CacheKey.lock phone code) 1 cfg.lockDurationSeconds t ∨
    (verifyOTP cfg t phone code role st).2.cache =
      cacheSet st.cache (CacheKey.attempts phone code)
        ((cacheGet st.cache (CacheKey.attempts phone code) t).getD 0 + 1) 3600 t ∨
    (verifyOTP cfg t phone code role st).2.cache =
      cacheDelete (cacheDelete st.cache (CacheKey.attempts phone code))
        (CacheKey.lock phone code) := by
  unfold verifyOTP
  dsimp only
  repeat' split
  all_goals simp

theorem verify_cache_frame (cfg : Config) (t : Nat) (phone code : String)
    (role : Option String) (st : State) (k : CacheKey)
    (h1 : k ≠ CacheKey.attempts phone code) (h2 : k ≠ CacheKey.lock phone code) :
    cacheFind (verifyOTP cfg t phone code role st).2.cache k = cacheFind st.cache k := by
  rcases verify_cache_cases cfg t phone code role st with h | h | h | h
  · rw [h]
  · rw [h]
    exact cacheFind_set_ne _ _ _ _ _ _ h2
  · rw [h]
    exact cacheFind_set_ne _ _ _ _ _ _ h1
  · rw [h, cacheFind_delete_ne _ _ _ h2, cacheFind_delete_ne _ _ _ h1]

theorem verify_users_unchanged (cfg : Config) (t : Nat) (phone code : String)
    (role : Option String) (st : State) :
    (verifyOTP cfg t phone code role st).2.users = st.users := by
  unfold verifyOTP
  dsimp only
  repeat' split
  all_goals simp

theorem verify_not_tooMany (cfg : Config) (t : Nat) (phone code : String)
    (role : Option String) (st : State)
    (hl : truthy (cacheGet st.cache (CacheKey.lock phone code) t) = false)
    (ha : (cacheGet st.cache (CacheKey.attempts phone code) t).getD 0 < cfg.maxVerifyAttempts) :
    (verifyOTP cfg t phone code role st).1 ≠ VerifyResult.tooManyAttempts := by
  unfold verifyOTP
  dsimp only
  rw [hl]
  rw [if_neg (by simp)]
  rw [if_neg (Nat.not_le.mpr ha)]
  repeat' split
  all_goals simp

theorem verify_tooMany_cause (cfg : Config) (t : Nat) (phone code : String)
    (role : Option String) (st : State)
    (h : (verifyOTP cfg t phone code role st).1 = VerifyResult.tooManyAttempts) :
    truthy (cacheGet st.cache (CacheKey.lock phone code) t) = true ∨
    cfg.maxVerifyAttempts ≤ (cacheGet st.cache (CacheKey.attempts phone code) t).getD 0 := by
  by_cases hl : truthy (cacheGet st.cache (CacheKey.lock phone code) t) = true
  · exact Or.inl hl
  · by_cases ha : cfg.maxVerifyAttempts ≤ (cacheGet st.cache (CacheKey.attempts phone code) t).getD 0
    · exact Or.inr ha
    · exact absurd h (verify_not_tooMany cfg t phone code role st
        (Bool.not_eq_true _ ▸ Bool.of_not_eq_true hl) (Nat.not_le.mp ha))

theorem verify_success_active (cfg : Config) (t : Nat) (phone code : String)
    (role : Option String) (st : State) (tok : TokenPayload)
    (h : (verifyOTP cfg t phone code role st).1 = VerifyResult.success tok) :
    ∃ u, u ∈ st.users ∧ u.phone = phone ∧ u.is_active = true := by
  unfold verifyOTP at h
  dsimp only at h
  split at h
  · exact absurd h (by simp)
  · split at h
    · exact absurd h (by simp)
    · split at h
      · exact absurd h (by simp)
      · split at h <;> rename_i hu
        · exact absurd h (by simp)
        · split at h <;> rename_i hact
          · exact absurd h (by simp)
          · rename_i u
            have hmem : u ∈ st.users.filter (fun x => decide (x.phone = phone)) := by
              rw [hu]; simp
            have hsplit := List.mem_filter.mp hmem
            exact ⟨u, hsplit.1, by simpa using hsplit.2, by simpa using hact⟩
        · exact absurd h (by simp)
      · exact absurd h (by simp)

theorem loginWithUser_inactive_ne_success (cfg : Config) (t : Nat)
    (password : String) (role : Option String) (u : UserRec) (tok : TokenPayload)
    (hinact : u.is_active = false) :
    loginWithUser cfg t password role u ≠ LoginResult.success tok := by
  unfold loginWithUser
  split
  · simp
  · rw [if_pos (by simp [hinact])]
    simp

theorem login_inactive_ne_success (cfg : Config) (t : Nat)
    (phone password : String) (role : Option String) (st : State) (u : UserRec)
    (tok : TokenPayload)
    (hu : st.users.filter (fun x => decide (x.phone = phone)) = [u])
    (hinact : u.is_active = false) :
    login cfg t phone password role st ≠ LoginResult.success tok := by
  unfold login
  split
  · simp
  · simp only [hu]
    exact loginWithUser_inactive_ne_success cfg t password role u tok hinact

/- ### Atomic consume lemmas -/

theorem atomicConsume_success (now : Nat) (phone code : String) (l : List OTPRec)
    (r : OTPRec) (h : l.filter (otpMatches now phone code) = [r]) :
    atomicConsume now phone code l = (true, markOne l r) := by
  simp [atomicConsume, h]

theorem atomicConsume_fail (now : Nat) (phone code : String) (l : List OTPRec)
    (h : l.filter (otpMatches now phone code) = []) :
    atomicConsume now phone code l = (false, l) := by
  simp [atomicConsume, h]

theorem runConsumes_none (now : Nat) (phone code : String) (n : Nat) (l : List OTPRec)
    (h : l.filter (otpMatches now phone code) = []) :
    runConsumes now phone code n l = (0, n, l) := by
  induction n with
  | zero => rfl
  | succ m ih =>
    simp [runConsumes, atomicConsume_fail now phone code l h, ih]
    omega

/- ### Claim theorems -/

/-- C1: for one valid OTP record, any serial order of N ≥ 2 concurrent
verification transactions with the correct code (the atomic
`select_for_update` read-check-mark block) yields exactly one success and
N−1 failures; in particular two simultaneous requests never both consume
the record. -/
theorem c1_exactly_once_consumption (now : Nat) (phone code : String)
    (otps : List OTPRec) (r : OTPRec) (n : Nat)
    (hone : otps.filter (otpMatches now phone code) = [r])
    (hn : 2 ≤ n) :
    (runConsumes now phone code n otps).1 = 1 ∧
    (runConsumes now phone code n otps).2.1 = n - 1 := by
  obtain ⟨m, rfl⟩ : ∃ m, n = m + 1 := ⟨n - 1, by omega⟩
  have hstep := atomicConsume_success now phone code otps r hone
  have hnil := markOne_filter_nil now phone code otps r hone
  have hrest := runConsumes_none now phone code m (markOne otps r) hnil
  simp [runConsumes, hstep, hrest]

/-- C1 witness: three concurrent verifications of the one valid record give
one success and two failures. -/
theorem c1_exactly_once_consumption_witness :
    (runConsumes 10 "5550001" "1234" 3 [sampleOtp]).1 = 1 ∧
    (runConsumes 10 "5550001" "1234" 3 [sampleOtp]).2.1 = 3 - 1 :=
  c1_exactly_once_consumption 10 "5550001" "1234" [sampleOtp] sampleOtp 3
    (by decide) (by decide)

/-- C2 counterexample: a super-admin user with no RoleAssignment rows
requesting role "MANAGER" is rejected with AccessDenied by both the login
flow and the verify flow, refuting the claim that the super-admin flag
satisfies any requested role. -/
theorem c2_superadmin_gate_cex :
    login defaultCfg 0 "9342547471" "Admin@123" (some "MANAGER")
      { users := [superAdminUser], otps := [], cache := [] } =
      LoginResult.accessDenied "MANAGER" ∧
    (verifyOTP defaultCfg 10 "9342547471" "4321" (some "MANAGER")
      { users := [superAdminUser], otps := [superOtp], cache := [] }).1 =
      VerifyResult.accessDenied "MANAGER" := by
  exact ⟨rfl, rfl⟩

/-- C2 amended: the super-admin flag passes the role gate only for the
literal requested role "SUPERADMIN"; for every other requested role the
gate passes exactly when the user holds a RoleAssignment with that exact
name, super-admin flag notwithstanding. -/
theorem c2_superadmin_gate_amended (u : UserRec) :
    (u.is_super_admin = true → roleCheck u "SUPERADMIN" = true) ∧
    (∀ role : String, role ≠ "SUPERADMIN" → roleCheck u role = u.roles.contains role) := by
  constructor
  · intro h
    simp [roleCheck, h]
  · intro role hr
    simp [roleCheck, hr]

/-- C2 amended witness at the super-admin fixture. -/
theorem c2_superadmin_gate_amended_witness :
    roleCheck superAdminUser "SUPERADMIN" = true ∧
    roleCheck superAdminUser "MANAGER" = superAdminUser.roles.contains "MANAGER" :=
  ⟨(c2_superadmin_gate_amended superAdminUser).1 (by decide),
   (c2_superadmin_gate_amended superAdminUser).2 "MANAGER" (by decide)⟩

/-- C7: whenever no OTP row matches (phone, code, unused, unexpired) — the
code is wrong, the row expired, or the row was already consumed — verify
increments the (phone, code) failure counter with a fresh 1-hour TTL and
returns the one identical InvalidOrExpiredCode failure; nothing in the
result distinguishes the three sub-cases. -/
theorem c7_uniform_failure (cfg : Config) (t : Nat) (phone code : String)
    (role : Option String) (st : State)
    (hl : truthy (cacheGet st.cache (CacheKey.lock phone code) t) = false)
    (ha : (cacheGet st.cache (CacheKey.attempts phone code) t).getD 0 < cfg.maxVerifyAttempts)
    (hf : st.otps.filter (otpMatches t phone code) = []) :
    verifyOTP cfg t phone code role st =
      (VerifyResult.invalidOrExpiredCode,
       { st with cache := cacheSet st.cache (CacheKey.attempts phone code)
                   ((cacheGet st.cache (CacheKey.attempts phone code) t).getD 0 + 1) 3600 t }) :=
  verify_no_match cfg t phone code role st hl ha hf

/-- C7 witness: the same failure in all three sub-cases — wrong code,
expired row, already-used row. -/
theorem c7_uniform_failure_witness :
    verifyOTP defaultCfg 10 "5550001" "9999" none
      { users := [activeUser], otps := [sampleOtp], cache := [] } =
      (VerifyResult.invalidOrExpiredCode,
       { users := [activeUser], otps := [sampleOtp],
         cache := cacheSet [] (CacheKey.attempts "5550001" "9999") 1 3600 10 }) ∧
    verifyOTP defaultCfg 301 "5550001" "1234" none
      { users := [activeUser], otps := [sampleOtp], cache := [] } =
      (VerifyResult.invalidOrExpiredCode,
       { users := [activeUser], otps := [sampleOtp],
         cache := cacheSet [] (CacheKey.attempts "5550001" "1234") 1 3600 301 }) ∧
    verifyOTP defaultCfg 10 "5550001" "1234" none
      { users := [activeUser], otps := [{ sampleOtp with used := true }], cache := [] } =
      (VerifyResult.invalidOrExpiredCode,
       { users := [activeUser], otps := [{ sampleOtp with used := true }],
         cache := cacheSet [] (CacheKey.attempts "5550001" "1234") 1 3600 10 }) :=
  ⟨c7_uniform_failure defaultCfg 10 "5550001" "9999" none _
     (by decide) (by decide) (by decide),
   c7_uniform_failure defaultCfg 301 "5550001" "1234" none _
     (by decide) (by decide) (by decide),
   c7_uniform_failure defaultCfg 10 "5550001" "1234" none _
     (by decide) (by decide) (by decide)⟩

/-- C9: a below-limit send for a phone whose user is deactivated still
increments the send-throttle counter (with a fresh 1-hour TTL) before the
AccountDisabled failure is returned, and creates no OTP row. -/
theorem c9_send_inactive_counts (cfg : Config) (t : Nat) (phone newCode : String)
    (st : State) (u : UserRec)
    (hrate : (cacheGet st.cache (CacheKey.rate phone) t).getD 0 < cfg.maxOtpPerHour)
    (hu : st.users.filter (fun x => decide (x.phone = phone)) = [u])
    (hinact : u.is_active = false) :
    (sendOTP cfg t phone newCode st).1 = SendResult.accountDisabled ∧
    cacheFind (sendOTP cfg t phone newCode st).2.cache (CacheKey.rate phone) =
      some ((cacheGet st.cache (CacheKey.rate phone) t).getD 0 + 1, t + RATE_LIMIT_WINDOW) ∧
    (sendOTP cfg t phone newCode st).2.otps = st.otps := by
  rw [send_inactive cfg t phone newCode st u hrate hu hinact]
  exact ⟨rfl, cacheFind_set_self _ _ _ _ _, rfl⟩

/-- C9 witness at the deactivated fixture account. -/
theorem c9_send_inactive_counts_witness :
    (sendOTP defaultCfg 0 "5550001" "111"
       { users := [inactiveUser], otps := [], cache := [] }).1 =
      SendResult.accountDisabled ∧
    cacheFind (sendOTP defaultCfg 0 "5550001" "111"
       { users := [inactiveUser], otps := [], cache := [] }).2.cache
      (CacheKey.rate "5550001") =
      some ((cacheGet [] (CacheKey.rate "5550001") 0).getD 0 + 1, 0 + RATE_LIMIT_WINDOW) ∧
    (sendOTP defaultCfg 0 "5550001" "111"
       { users := [inactiveUser], otps := [], cache := [] }).2.otps = [] :=
  c9_send_inactive_counts defaultCfg 0 "5550001" "111"
    { users := [inactiveUser], otps := [], cache := [] } inactiveUser
    (by decide) (by decide) (by decide)

theorem verify_consume_inactive (cfg : Config) (t : Nat) (phone code : String)
    (role : Option String) (st : State) (r : OTPRec) (u : UserRec)
    (hl : truthy (cacheGet st.cache (CacheKey.lock phone code) t) = false)
    (ha : (cacheGet st.cache (CacheKey.attempts phone code) t).getD 0 < cfg.maxVerifyAttempts)
    (hf : st.otps.filter (otpMatches t phone code) = [r])
    (hu : st.users.filter (fun x => decide (x.phone = phone)) = [u])
    (hinact : u.is_active = false) :
    verifyOTP cfg t phone code role st =
      (VerifyResult.accountDisabled,
       { users := st.users, otps := markOne st.otps r,
         cache := cacheDelete (cacheDelete st.cache (CacheKey.attempts phone code))
                    (CacheKey.lock phone code) }) := by
  simp [verifyOTP, hl, Nat.not_le.mpr ha, hf, hu, hinact]

/-- C3 counterexample: a verify for the deactivated account "5550001" with
the correct, valid code fails with AccountDisabled but still consumes the
OTP row — its used flag transitions to true — refuting "without consuming
any OTP record". -/
theorem c3_inactive_verify_cex :
    (verifyOTP defaultCfg 10 "5550001" "1234" none
       { users := [inactiveUser], otps := [sampleOtp], cache := [] }).1 =
      VerifyResult.accountDisabled ∧
    (verifyOTP defaultCfg 10 "5550001" "1234" none
       { users := [inactiveUser], otps := [sampleOtp], cache := [] }).2.otps =
      [{ sampleOtp with used := true }] :=
  ⟨rfl, rfl⟩

/-- C3 amended: for a phone whose unique user is deactivated, a below-limit
send fails with AccountDisabled creating no OTP row; a verify that reaches
the consume step with a unique matching valid row fails with
AccountDisabled only after marking that row used; and the user never
authenticates — no verify and no phone-credential login ever returns a
success token. -/
theorem c3_inactive_user (cfg : Config) (phone : String) (st : State) (u : UserRec)
    (hu : st.users.filter (fun x => decide (x.phone = phone)) = [u])
    (hinact : u.is_active = false) :
    (∀ t newCode, (cacheGet st.cache (CacheKey.rate phone) t).getD 0 < cfg.maxOtpPerHour →
       (sendOTP cfg t phone newCode st).1 = SendResult.accountDisabled ∧
       (sendOTP cfg t phone newCode st).2.otps = st.otps) ∧
    (∀ t code r role,
       truthy (cacheGet st.cache (CacheKey.lock phone code) t) = false →
       (cacheGet st.cache (CacheKey.attempts phone code) t).getD 0 < cfg.maxVerifyAttempts →
       st.otps.filter (otpMatches t phone code) = [r] →
       (verifyOTP cfg t phone code role st).1 = VerifyResult.accountDisabled ∧
       (verifyOTP cfg t phone code role st).2.otps = markOne st.otps r) ∧
    (∀ t code role tok, (verifyOTP cfg t phone code role st).1 ≠ VerifyResult.success tok) ∧
    (∀ t password role tok, login cfg t phone password role st ≠ LoginResult.success tok) := by
  refine ⟨?_, ?_, ?_, ?_⟩
  · intro t newCode hrate
    rw [send_inactive cfg t phone newCode st u hrate hu hinact]
    exact ⟨rfl, rfl⟩
  · intro t code r role hl ha hf
    rw [verify_consume_inactive cfg t phone code role st r u hl ha hf hu hinact]
    exact ⟨rfl, rfl⟩
  · intro t code role tok h
    obtain ⟨u2, hmem, hph, hact⟩ := verify_success_active cfg t phone code role st tok h
    have hflt : u2 ∈ st.users.filter (fun x => decide (x.phone = phone)) :=
      List.mem_filter.mpr ⟨hmem, by simp [hph]⟩
    rw [hu] at hflt
    simp only [List.mem_singleton] at hflt
    subst hflt
    rw [hinact] at hact
    exact absurd hact (by simp)
  · intro t password role tok
    exact login_inactive_ne_success cfg t phone password role st u tok hu hinact

/-- C3 amended witness at the deactivated fixture account with a valid OTP
row present. -/
theorem c3_inactive_user_witness :
    ((sendOTP defaultCfg 0 "5550001" "111"
        { users := [inactiveUser], otps := [sampleOtp], cache := [] }).1 =
      SendResult.accountDisabled ∧
     (sendOTP defaultCfg 0 "5550001" "111"
        { users := [inactiveUser], otps := [sampleOtp], cache := [] }).2.otps =
      [sampleOtp]) ∧
    ((verifyOTP defaultCfg 10 "5550001" "1234" none
        { users := [inactiveUser], otps := [sampleOtp], cache := [] }).1 =
      VerifyResult.accountDisabled ∧
     (verifyOTP defaultCfg 10 "5550001" "1234" none
        { users := [inactiveUser], otps := [sampleOtp], cache := [] }).2.otps =
      markOne [sampleOtp] sampleOtp) ∧
    ((verifyOTP defaultCfg 10 "5550001" "1234" none
        { users := [inactiveUser], otps := [sampleOtp], cache := [] }).1 ≠
      VerifyResult.success (issueToken defaultCfg 10 inactiveUser)) ∧
    (login defaultCfg 0 "5550001" "pw" none
        { users := [inactiveUser], otps := [sampleOtp], cache := [] } ≠
      LoginResult.success (issueToken defaultCfg 0 inactiveUser)) :=
  ⟨(c3_inactive_user defaultCfg "5550001"
      { users := [inactiveUser], otps := [sampleOtp], cache := [] } inactiveUser
      (by decide) (by decide)).1 0 "111" (by decide),
   (c3_inactive_user defaultCfg "5550001"
      { users := [inactiveUser], otps := [sampleOtp], cache := [] } inactiveUser
      (by decide) (by decide)).2.1 10 "1234" sampleOtp none
      (by decide) (by decide) (by decide),
   (c3_inactive_user defaultCfg "5550001"
      { users := [inactiveUser], otps := [sampleOtp], cache := [] } inactiveUser
      (by decide) (by decide)).2.2.1 10 "1234" none
      (issueToken defaultCfg 10 inactiveUser),
   (c3_inactive_user defaultCfg "5550001"
      { users := [inactiveUser], otps := [sampleOtp], cache := [] } inactiveUser
      (by decide) (by decide)).2.2.2 0 "pw" none
      (issueToken defaultCfg 0 inactiveUser)⟩

/-- C5 counterexample: the lock duration (300 s) has elapsed at t = 350 —
the lock flag is no longer visible — and the correct code "1234" is still
valid (row unused, unexpired), but the (phone, code) failure counter has a
1-hour TTL and is still at the maximum, so verify re-locks and returns
TooManyAttempts instead of succeeding. -/
theorem c5_lockout_cex :
    truthy (cacheGet [(CacheKey.attempts "5550001" "1234", 5, 4000),
                      (CacheKey.lock "5550001" "1234", 1, 300)]
             (CacheKey.lock "5550001" "1234") 350) = false ∧
    [{ sampleOtp with expires_at := 1000 }].filter (otpMatches 350 "5550001" "1234") =
      [{ sampleOtp with expires_at := 1000 }] ∧
    (verifyOTP defaultCfg 350 "5550001" "1234" none
       { users := [activeUser],
         otps := [{ sampleOtp with expires_at := 1000 }],
         cache := [(CacheKey.attempts "5550001" "1234", 5, 4000),
                   (CacheKey.lock "5550001" "1234", 1, 300)] }).1 =
      VerifyResult.tooManyAttempts :=
  ⟨rfl, rfl, rfl⟩

/-- C5 amended: while the lockout flag is visible, verify fails immediately
with TooManyAttempts and the state is returned untouched (no counter
increment, no database work); and once the lock has elapsed AND the
(phone, code) failure counter has also expired or been cleared, a verify
with the correct, still-valid code succeeds. -/
theorem c5_lockout (cfg : Config) (phone code : String) :
    (∀ t (role : Option String) (st : State),
       truthy (cacheGet st.cache (CacheKey.lock phone code) t) = true →
       verifyOTP cfg t phone code role st = (VerifyResult.tooManyAttempts, st)) ∧
    (∀ t (st : State) (r : OTPRec) (u : UserRec),
       truthy (cacheGet st.cache (CacheKey.lock phone code) t) = false →
       cacheGet st.cache (CacheKey.attempts phone code) t = none →
       0 < cfg.maxVerifyAttempts →
       st.otps.filter (otpMatches t phone code) = [r] →
       st.users.filter (fun x => decide (x.phone = phone)) = [u] →
       u.is_active = true →
       (verifyOTP cfg t phone code none st).1 =
         VerifyResult.success (issueToken cfg t u)) := by
  constructor
  · intro t role st h
    exact verify_locked cfg t phone code role st h
  · intro t st r u hl hatt hmax hf hu hact
    rw [verify_success_noRole cfg t phone code st r u hl
      (by simpa [hatt] using hmax) hf hu hact]

/-- C5 amended witness: a locked state is rejected untouched; with both
counters gone, the still-valid code succeeds. -/
theorem c5_lockout_witness :
    verifyOTP defaultCfg 10 "5550001" "1234" none
      { users := [activeUser], otps := [sampleOtp],
        cache := [(CacheKey.lock "5550001" "1234", 1, 400)] } =
      (VerifyResult.tooManyAttempts,
       { users := [activeUser], otps := [sampleOtp],
         cache := [(CacheKey.lock "5550001" "1234", 1, 400)] }) ∧
    (verifyOTP defaultCfg 10 "5550001" "1234" none
       { users := [activeUser], otps := [sampleOtp], cache := [] }).1 =
      VerifyResult.success (issueToken defaultCfg 10 activeUser) :=
  ⟨(c5_lockout defaultCfg "5550001" "1234").1 10 none
     { users := [activeUser], otps := [sampleOtp],
       cache := [(CacheKey.lock "5550001" "1234", 1, 400)] } (by decide),
   (c5_lockout defaultCfg "5550001" "1234").2 10
     { users := [activeUser], otps := [sampleOtp], cache := [] }
     sampleOtp activeUser (by decide) (by decide) (by decide) (by decide)
     (by decide) (by decide)⟩

/-- C6 counterexample: sends at t = 0 and t = 100 land within one window;
after the second send the counter entry expires at 100 + 3600, not at the
first-increment horizon 0 + 3600 — every increment refreshes the TTL,
refuting "the TTL is not refreshed by subsequent increments". -/
theorem c6_rate_ttl_cex :
    cacheFind (sendOTP defaultCfg 100 "5550001" "222"
        (sendOTP defaultCfg 0 "5550001" "111"
          { users := [activeUser], otps := [], cache := [] }).2).2.cache
      (CacheKey.rate "5550001") = some (2, 100 + RATE_LIMIT_WINDOW) ∧
    100 + RATE_LIMIT_WINDOW ≠ 0 + RATE_LIMIT_WINDOW :=
  ⟨rfl, by decide⟩

/-- C6 amended: at the cap, send fails RateLimited returning the state
untouched (no side effects, no OTP row); below the cap the counter is
incremented and re-stamped with a fresh 1-hour TTL on every increment, so
the limit window is anchored to the most recent send, not the first. -/
theorem c6_rate_limit (cfg : Config) (t : Nat) (phone newCode : String) (st : State) :
    (cfg.maxOtpPerHour ≤ (cacheGet st.cache (CacheKey.rate phone) t).getD 0 →
       sendOTP cfg t phone newCode st = (SendResult.rateLimited, st)) ∧
    ((cacheGet st.cache (CacheKey.rate phone) t).getD 0 < cfg.maxOtpPerHour →
       cacheFind (sendOTP cfg t phone newCode st).2.cache (CacheKey.rate phone) =
         some ((cacheGet st.cache (CacheKey.rate phone) t).getD 0 + 1,
               t + RATE_LIMIT_WINDOW)) := by
  constructor
  · exact send_rate_limited cfg t phone newCode st
  · intro h
    unfold sendOTP
    dsimp only
    rw [if_neg (Nat.not_le.mpr h)]
    split
    · simp [sendCreate, cacheFind_set_self]
    · split
      · simp [cacheFind_set_self]
      · simp [sendCreate, cacheFind_set_self]
    · simp [cacheFind_set_self]

/-- C6 amended witness: a maxed-out counter rejects the send untouched; a
below-cap send stamps the incremented counter with expiry now + window. -/
theorem c6_rate_limit_witness :
    sendOTP defaultCfg 10 "5550001" "111"
      { users := [activeUser], otps := [],
        cache := [(CacheKey.rate "5550001", 5, 3600)] } =
      (SendResult.rateLimited,
       { users := [activeUser], otps := [],
         cache := [(CacheKey.rate "5550001", 5, 3600)] }) ∧
    cacheFind (sendOTP defaultCfg 10 "5550001" "111"
        { users := [activeUser], otps := [], cache := [] }).2.cache
      (CacheKey.rate "5550001") = some (1, 10 + RATE_LIMIT_WINDOW) :=
  ⟨(c6_rate_limit defaultCfg 10 "5550001" "111"
      { users := [activeUser], otps := [],
        cache := [(CacheKey.rate "5550001", 5, 3600)] }).1 (by decide),
   (c6_rate_limit defaultCfg 10 "5550001" "111"
      { users := [activeUser], otps := [], cache := [] }).2 (by decide)⟩

/-- C4: a successful send at instant t invalidates every previously valid
row for the phone (its expiry is forced to t and the updated row is in the
table), so at any later instant at most one row for that phone can match
the verifier's validity predicate, and verifying any code other than the
newly issued one fails with InvalidOrExpiredCode. -/
theorem c4_send_invalidates (cfg : Config) (t : Nat) (phone newCode : String)
    (st : State)
    (hsent : (sendOTP cfg t phone newCode st).1 = SendResult.otpSent newCode) :
    (∀ r ∈ st.otps, r.phone = phone → r.used = false → t < r.expires_at →
       { r with expires_at := t } ∈ (sendOTP cfg t phone newCode st).2.otps) ∧
    (∀ t2, t < t2 →
       ((sendOTP cfg t phone newCode st).2.otps.filter
          (fun r => decide (r.phone = phone) && !r.used &&
                      decide (t2 ≤ r.expires_at))).length ≤ 1) ∧
    (∀ (t2 : Nat) (role : Option String) (oldCode : String), t < t2 →
       oldCode ≠ newCode →
       truthy (cacheGet (sendOTP cfg t phone newCode st).2.cache
                 (CacheKey.lock phone oldCode) t2) = false →
       (cacheGet (sendOTP cfg t phone newCode st).2.cache
          (CacheKey.attempts phone oldCode) t2).getD 0 < cfg.maxVerifyAttempts →
       (verifyOTP cfg t2 phone oldCode role (sendOTP cfg t phone newCode st).2).1 =
         VerifyResult.invalidOrExpiredCode) := by
  have hst := sendOTP_sent_state cfg t phone newCode st hsent
  refine ⟨?_, ?_, ?_⟩
  · intro r hr hphone hused hexp
    rw [hst]
    dsimp only
    apply List.mem_append_left
    apply List.mem_map.mpr
    refine ⟨r, List.mem_filter.mpr ⟨hr, by simp [hused, hexp]⟩, ?_⟩
    rw [if_pos (by simp [hphone, hused, hexp])]
  · intro t2 ht2
    rw [hst]
    dsimp only
    rw [List.filter_append]
    rw [filter_aged_nil t t2 ht2 phone st.otps _
      (by intro r hp
          simp only [Bool.and_eq_true, Bool.not_eq_true', decide_eq_true_eq] at hp
          exact ⟨hp.1.1, hp.1.2, hp.2⟩)]
    simpa using List.length_filter_le _ _
  · intro t2 role oldCode ht2 hne hlock hatt
    rw [hst] at hlock hatt ⊢
    have hnew : otpMatches t2 phone oldCode (createOtp t phone newCode cfg.otpExpiryMinutes) = false := by
      simp [otpMatches, createOtp, Ne.symm hne]
    have hfil : (invalidatePrev t phone (deleteOld t st.otps) ++
        [createOtp t phone newCode cfg.otpExpiryMinutes]).filter
          (otpMatches t2 phone oldCode) = [] := by
      rw [List.filter_append]
      rw [filter_aged_nil t t2 ht2 phone st.otps _
        (by intro r hp
            simp only [otpMatches, Bool.and_eq_true, Bool.not_eq_true',
              decide_eq_true_eq] at hp
            exact ⟨hp.1.1.1, hp.1.2, hp.2⟩)]
      simp [hnew]
    rw [verify_no_match cfg t2 phone oldCode role _ hlock hatt hfil]

/-- C4 witness: after a send at t = 0 issuing "9999", the previous valid
row appears with expiry 0, at t = 5 at most one row is valid for the
phone, and verifying the old code "1234" at t = 5 fails. -/
theorem c4_send_invalidates_witness :
    ({ sampleOtp with expires_at := 0 } ∈
       (sendOTP defaultCfg 0 "5550001" "9999"
          { users := [activeUser], otps := [sampleOtp], cache := [] }).2.otps) ∧
    (((sendOTP defaultCfg 0 "5550001" "9999"
         { users := [activeUser], otps := [sampleOtp], cache := [] }).2.otps.filter
        (fun r => decide (r.phone = "5550001") && !r.used &&
                    decide (5 ≤ r.expires_at))).length ≤ 1) ∧
    ((verifyOTP defaultCfg 5 "5550001" "1234" none
        (sendOTP defaultCfg 0 "5550001" "9999"
          { users := [activeUser], otps := [sampleOtp], cache := [] }).2).1 =
      VerifyResult.invalidOrExpiredCode) :=
  ⟨(c4_send_invalidates defaultCfg 0 "5550001" "9999"
      { users := [activeUser], otps := [sampleOtp], cache := [] } (by decide)).1
      sampleOtp (by decide) (by decide) (by decide) (by decide),
   (c4_send_invalidates defaultCfg 0 "5550001" "9999"
      { users := [activeUser], otps := [sampleOtp], cache := [] } (by decide)).2.1
      5 (by decide),
   (c4_send_invalidates defaultCfg 0 "5550001" "9999"
      { users := [activeUser], otps := [sampleOtp], cache := [] } (by decide)).2.2
      5 none "1234" (by decide) (by decide) (by decide) (by decide)⟩

/-- C8: for an active user, send(phone) at t followed by verify with the
just-issued code at t2 (within the code's validity) succeeds with a token
whose embedded user_id is the user's id; a second verify with the same
code at any t3 ≥ t2 then fails with InvalidOrExpiredCode. -/
theorem c8_round_trip (cfg : Config) (t t2 t3 : Nat) (phone newCode : String)
    (st : State) (u : UserRec)
    (huser : st.users.filter (fun x => decide (x.phone = phone)) = [u])
    (hact : u.is_active = true)
    (hmax : 0 < cfg.maxVerifyAttempts)
    (hrate : (cacheGet st.cache (CacheKey.rate phone) t).getD 0 < cfg.maxOtpPerHour)
    (hlock : cacheFind st.cache (CacheKey.lock phone newCode) = none)
    (hatt : cacheFind st.cache (CacheKey.attempts phone newCode) = none)
    (ht2 : t < t2) (ht2e : t2 ≤ t + cfg.otpExpiryMinutes * 60) :
    ((verifyOTP cfg t2 phone newCode none (sendOTP cfg t phone newCode st).2).1 =
       VerifyResult.success (issueToken cfg t2 u) ∧
     (issueToken cfg t2 u).user_id = u.id) ∧
    (verifyOTP cfg t3 phone newCode none
       (verifyOTP cfg t2 phone newCode none (sendOTP cfg t phone newCode st).2).2).1 =
      VerifyResult.invalidOrExpiredCode := by
  have hs := send_active_sent cfg t phone newCode st u hrate huser hact
  have hl1 : truthy (cacheGet (cacheSet st.cache (CacheKey.rate phone)
      ((cacheGet st.cache (CacheKey.rate phone) t).getD 0 + 1) RATE_LIMIT_WINDOW t)
      (CacheKey.lock phone newCode) t2) = false := by
    rw [cacheGet_set_ne _ _ _ _ _ _ _ (by simp), cacheGet_of_find_none _ _ _ hlock]
    rfl
  have ha1 : (cacheGet (cacheSet st.cache (CacheKey.rate phone)
      ((cacheGet st.cache (CacheKey.rate phone) t).getD 0 + 1) RATE_LIMIT_WINDOW t)
      (CacheKey.attempts phone newCode) t2).getD 0 < cfg.maxVerifyAttempts := by
    rw [cacheGet_set_ne _ _ _ _ _ _ _ (by simp), cacheGet_of_find_none _ _ _ hatt]
    simpa using hmax
  have hf1 : (invalidatePrev t phone (deleteOld t st.otps) ++
      [createOtp t phone newCode cfg.otpExpiryMinutes]).filter
        (otpMatches t2 phone newCode) =
      [createOtp t phone newCode cfg.otpExpiryMinutes] := by
    rw [List.filter_append, filter_aged_nil t t2 ht2 phone st.otps _
      (by intro r hp
          simp only [otpMatches, Bool.and_eq_true, Bool.not_eq_true',
            decide_eq_true_eq] at hp
          exact ⟨hp.1.1.1, hp.1.2, hp.2⟩)]
    simp [otpMatches, createOtp, ht2e]
  have hv1 := verify_success_noRole cfg t2 phone newCode
    { users := st.users,
      otps := invalidatePrev t phone (deleteOld t st.otps) ++
                [createOtp t phone newCode cfg.otpExpiryMinutes],
      cache := cacheSet st.cache (CacheKey.rate phone)
                 ((cacheGet st.cache (CacheKey.rate phone) t).getD 0 + 1)
                 RATE_LIMIT_WINDOW t }
    (createOtp t phone newCode cfg.otpExpiryMinutes) u hl1 ha1 hf1 huser hact
  have hl2 : truthy (cacheGet (cacheDelete (cacheDelete (cacheSet st.cache
      (CacheKey.rate phone) ((cacheGet st.cache (CacheKey.rate phone) t).getD 0 + 1)
      RATE_LIMIT_WINDOW t) (CacheKey.attempts phone newCode))
      (CacheKey.lock phone newCode)) (CacheKey.lock phone newCode) t3) = false := by
    rw [cacheGet_of_find_none _ _ _ (cacheFind_delete_self _ _)]
    rfl
  have ha2 : (cacheGet (cacheDelete (cacheDelete (cacheSet st.cache
      (CacheKey.rate phone) ((cacheGet st.cache (CacheKey.rate phone) t).getD 0 + 1)
      RATE_LIMIT_WINDOW t) (CacheKey.attempts phone newCode))
      (CacheKey.lock phone newCode)) (CacheKey.attempts phone newCode) t3).getD 0 <
      cfg.maxVerifyAttempts := by
    have hfind : cacheFind (cacheDelete (cacheDelete (cacheSet st.cache
        (CacheKey.rate phone) ((cacheGet st.cache (CacheKey.rate phone) t).getD 0 + 1)
        RATE_LIMIT_WINDOW t) (CacheKey.attempts phone newCode))
        (CacheKey.lock phone newCode)) (CacheKey.attempts phone newCode) = none := by
      rw [cacheFind_delete_ne _ _ _ (by simp), cacheFind_delete_self]
    rw [cacheGet_of_find_none _ _ _ hfind]
    simpa using hmax
  have hf2 : (deleteOld t2 (markOne (invalidatePrev t phone (deleteOld t st.otps) ++
      [createOtp t phone newCode cfg.otpExpiryMinutes])
      (createOtp t phone newCode cfg.otpExpiryMinutes))).filter
        (otpMatches t3 phone newCode) = [] := by
    rw [List.filter_eq_nil]
    intro x hx hmx
    obtain ⟨hxm, hcond⟩ := List.mem_filter.mp hx
    simp only [Bool.and_eq_true, Bool.not_eq_true', decide_eq_true_eq] at hcond
    obtain ⟨y, hy, hxy⟩ := List.mem_map.mp hxm
    by_cases hyN : y = createOtp t phone newCode cfg.otpExpiryMinutes
    · rw [if_pos hyN] at hxy
      rw [← hxy] at hcond
      simp [markUsed] at hcond
    · rw [if_neg hyN] at hxy
      subst hxy
      rcases List.mem_append.mp hy with hyA | hyN2
      · simp only [otpMatches, Bool.and_eq_true, decide_eq_true_eq,
          Bool.not_eq_true'] at hmx
        have hb := invalidatePrev_deleteOld_expiry t phone st.otps y hyA
          hmx.1.1.1 hmx.1.2
        omega
      · simp only [List.mem_singleton] at hyN2
        exact hyN hyN2
  rw [hs]
  dsimp only
  rw [hv1]
  dsimp only
  refine ⟨⟨rfl, rfl⟩, ?_⟩
  rw [verify_no_match cfg t3 phone newCode none _ hl2 ha2 hf2]

/-- C8 witness: send at t = 0 issuing "1111", verify at t = 5 succeeds with
the user's id embedded, and the second verify at t = 6 fails. -/
theorem c8_round_trip_witness :
    ((verifyOTP defaultCfg 5 "5550001" "1111" none
        (sendOTP defaultCfg 0 "5550001" "1111"
          { users := [activeUser], otps := [], cache := [] }).2).1 =
       VerifyResult.success (issueToken defaultCfg 5 activeUser) ∧
     (issueToken defaultCfg 5 activeUser).user_id = activeUser.id) ∧
    (verifyOTP defaultCfg 6 "5550001" "1111" none
       (verifyOTP defaultCfg 5 "5550001" "1111" none
         (sendOTP defaultCfg 0 "5550001" "1111"
           { users := [activeUser], otps := [], cache := [] }).2).2).1 =
      VerifyResult.invalidOrExpiredCode :=
  c8_round_trip defaultCfg 0 5 6 "5550001" "1111"
    { users := [activeUser], otps := [], cache := [] } activeUser
    (by decide) (by decide) (by decide) (by decide) (by decide) (by decide)
    (by decide) (by decide)

theorem runVerifies_no_tooMany (cfg : Config) (phone : String)
    (steps : List (Nat × String)) (st : State)
    (hmax : 0 < cfg.maxVerifyAttempts)
    (hnodup : (steps.map Prod.snd).Nodup)
    (hclean : ∀ c ∈ steps.map Prod.snd,
       cacheFind st.cache (CacheKey.attempts phone c) = none ∧
       cacheFind st.cache (CacheKey.lock phone c) = none) :
    VerifyResult.tooManyAttempts ∉ (runVerifies cfg phone steps st).1 := by
  induction steps generalizing st with
  | nil => simp [runVerifies]
  | cons hd tl ih =>
    obtain ⟨tt, cc⟩ := hd
    simp only [List.map_cons] at hnodup
    have hc := hclean cc (by simp)
    have hl : truthy (cacheGet st.cache (CacheKey.lock phone cc) tt) = false := by
      rw [cacheGet_of_find_none _ _ _ hc.2]
      rfl
    have ha : (cacheGet st.cache (CacheKey.attempts phone cc) tt).getD 0 <
        cfg.maxVerifyAttempts := by
      rw [cacheGet_of_find_none _ _ _ hc.1]
      simpa using hmax
    have hres := verify_not_tooMany cfg tt phone cc none st hl ha
    simp only [runVerifies]
    intro hmem
    rcases List.mem_cons.mp hmem with heq | hmem2
    · exact hres heq.symm
    · have hnodup2 : (tl.map Prod.snd).Nodup := (List.nodup_cons.mp hnodup).2
      have hclean2 : ∀ c ∈ tl.map Prod.snd,
          cacheFind (verifyOTP cfg tt phone cc none st).2.cache
            (CacheKey.attempts phone c) = none ∧
          cacheFind (verifyOTP cfg tt phone cc none st).2.cache
            (CacheKey.lock phone c) = none := by
        intro c hcmem
        have hcne : c ≠ cc := by
          intro he
          subst he
          exact (List.nodup_cons.mp hnodup).1 hcmem
        have h1 := verify_cache_frame cfg tt phone cc none st
          (CacheKey.attempts phone c) (by simp [hcne]) (by simp)
        have h2 := verify_cache_frame cfg tt phone cc none st
          (CacheKey.lock phone c) (by simp) (by simp [hcne])
        rw [h1, h2]
        exact hclean c (by simp [hcmem])
      exact ih (verifyOTP cfg tt phone cc none st).2 hnodup2 hclean2 hmem2

/-- C10: verify returns TooManyAttempts only when the (phone, code) lockout
flag is visible or the (phone, code) failure counter has reached the
configured maximum; and because both are keyed by the exact (phone, code)
pair, a sequence of verifies for one phone that each submit a distinct
code (starting with no counters for those codes) never triggers
TooManyAttempts. -/
theorem c10_lockout_keyed_per_code (cfg : Config) (phone : String) :
    (∀ (t : Nat) (code : String) (role : Option String) (st : State),
       (verifyOTP cfg t phone code role st).1 = VerifyResult.tooManyAttempts →
       truthy (cacheGet st.cache (CacheKey.lock phone code) t) = true ∨
       cfg.maxVerifyAttempts ≤ (cacheGet st.cache (CacheKey.attempts phone code) t).getD 0) ∧
    (∀ (steps : List (Nat × String)) (st : State),
       0 < cfg.maxVerifyAttempts →
       (steps.map Prod.snd).Nodup →
       (∀ c ∈ steps.map Prod.snd,
          cacheFind st.cache (CacheKey.attempts phone c) = none ∧
          cacheFind st.cache (CacheKey.lock phone c) = none) →
       VerifyResult.tooManyAttempts ∉ (runVerifies cfg phone steps st).1) := by
  constructor
  · intro t code role st h
    exact verify_tooMany_cause cfg t phone code role st h
  · intro steps st hmax hnodup hclean
    exact runVerifies_no_tooMany cfg phone steps st hmax hnodup hclean

/-- C10 witness: a locked state is diagnosed as lock-or-counter, and six
verifies with six distinct wrong codes (one more than the maximum) never
hit TooManyAttempts. -/
theorem c10_lockout_keyed_per_code_witness :
    (truthy (cacheGet [(CacheKey.lock "5550001" "1234", 1, 400)]
        (CacheKey.lock "5550001" "1234") 10) = true ∨
     defaultCfg.maxVerifyAttempts ≤
       (cacheGet [(CacheKey.lock "5550001" "1234", 1, 400)]
         (CacheKey.attempts "5550001" "1234") 10).getD 0) ∧
    VerifyResult.tooManyAttempts ∉
      (runVerifies defaultCfg "5550001"
        [(0, "1"), (1, "2"), (2, "3"), (3, "4"), (4, "5"), (5, "6")]
        { users := [activeUser], otps := [], cache := [] }).1 :=
  ⟨(c10_lockout_keyed_per_code defaultCfg "5550001").1 10 "1234" none
     { users := [activeUser], otps := [],
       cache := [(CacheKey.lock "5550001" "1234", 1, 400)] } (by decide),
   (c10_lockout_keyed_per_code defaultCfg "5550001").2
     [(0, "1"), (1, "2"), (2, "3"), (3, "4"), (4, "5"), (5, "6")]
     { users := [activeUser], otps := [], cache := [] }
     (by decide) (by decide) (by decide)⟩
